import Mathlib

/-!
Shallow embedding of the spillable-buffer and copy-on-write buffer subsystem
of this repository (core/buffer/spillable_buffer.py and core/buffer/cow_buffer.py).

Device memory is a function from addresses to bytes.  The external allocator
(`rmm.DeviceBuffer.to_device`) is modelled by an environment field
`allocAddr : Option Nat`: `some a` means the next fresh device allocation is
placed at address `a`, `none` means the allocation fails with OutOfMemory.
The spill manager's statistics sink (`log_spill`, `log_expose`) and its
`spill_to_device_limit` entry point are recorded as an event trace.
Weak references (the `_spill_locks` weak set) become a list of lock-token
identifiers together with an explicit `dropLock` operation modelling the
death of a token.
-/

namespace CudfBuffers

/-- Location tag stored in `_ptr_desc["type"]` of a `SpillableBuffer`. -/
inductive PtrType where
  | gpu
  | cpu
deriving DecidableEq, Repr

/-- The string that `_ptr_desc["type"]` holds for each location. -/
def PtrType.str : PtrType → String
  | PtrType.gpu => "gpu"
  | PtrType.cpu => "cpu"

/-- Error outcomes of buffer operations, following the spec taxonomy.
`illegalState` is the `ValueError("Cannot in-place move an unspillable buffer")`,
`invalidArgument` the `ValueError("Unknown target")`, `outOfMemory` the rmm
allocation failure, `keyError` a missing `"memoryview"` key at `dict.pop`,
`assertionError` the `assert self._size == dev_mem.size`, and `indexError`
the out-of-range index in `DelayedPointerTuple.__getitem__`. -/
inductive Err where
  | illegalState
  | invalidArgument
  | outOfMemory
  | keyError
  | assertionError
  | indexError
deriving DecidableEq, Repr

/-- Observable calls into the spill manager (statistics sink and eviction
request), recorded as a trace. -/
inductive Event where
  | logSpill (src dst : PtrType) (nbytes : Nat)
  | logExpose
  | spillToDeviceLimit
deriving DecidableEq, Repr

/-- State of one `SpillableBuffer`: `ptrType` is `_ptr_desc["type"]`,
`hostView` the optional `_ptr_desc["memoryview"]` entry (host bytes),
`ptr` is `_ptr`, `hasOwner` records whether `_owner` is a live device
allocation, `size` is `_size`, `exposed` is `_exposed`, `spillLocks` the
identifiers of the live tokens in the `_spill_locks` weak set, and
`lastAccessed` is `_last_accessed`. -/
structure SBuf where
  ptrType : PtrType
  hostView : Option (List Nat)
  ptr : Nat
  hasOwner : Bool
  size : Nat
  exposed : Bool
  spillLocks : List Nat
  lastAccessed : Nat
deriving DecidableEq, Repr

/-- Environment of an operation: current device memory, the address of the
next fresh device allocation (`none` models an OutOfMemory failure), and the
current monotonic clock. -/
structure SEnv where
  mem : Nat → Nat
  allocAddr : Option Nat
  clock : Nat

/-- Read `n` bytes of device memory starting at address `p`
(`copy_ptr_to_host`). -/
def readDev (m : Nat → Nat) (p n : Nat) : List Nat :=
  (List.range n).map fun i => m (p + i)

/-- Write the byte list `xs` into memory at address `p`
(the copy performed by `to_device`). -/
def writeList (m : Nat → Nat) (p : Nat) (xs : List Nat) : Nat → Nat :=
  fun a => if p ≤ a ∧ a < p + xs.length then xs.getD (a - p) 0 else m a

/-- Overwrite one byte of device memory (a mutation through a raw pointer). -/
def writeByte (m : Nat → Nat) (a v : Nat) : Nat → Nat :=
  fun x => if x = a then v else m x

/-- The `SpillableBuffer.spillable` property:
`not self._exposed and len(self._spill_locks) == 0`. -/
def SBuf.spillable (b : SBuf) : Bool :=
  !b.exposed && b.spillLocks.isEmpty

/-- The `SpillableBuffer.is_spilled` property:
`self._ptr_desc["type"] != "gpu"`. -/
def SBuf.isSpilled (b : SBuf) : Bool :=
  b.ptrType ≠ PtrType.gpu

/-- Result of `SpillableBuffer.spill`: the buffer state after the call, the
raised error if any, the manager events emitted, and the device memory after
the call. -/
structure SpillRes where
  buf : SBuf
  err : Option Err
  events : List Event
  mem : Nat → Nat

/-- The `SpillableBuffer.spill(target)` method.  Mirrors the source: early
return when already at `target`; `ValueError` when not spillable; on
`gpu → cpu` copy the device bytes into a fresh host bytearray, zero `_ptr`
and drop `_owner`; on `cpu → gpu` pop the `"memoryview"` entry first, then
attempt the device allocation (which copies the bytes in), then assert the
sizes match; any other target raises `ValueError("Unknown target")`.
`log_spill` runs only when no exception escaped and a move happened. -/
def SBuf.spill (env : SEnv) (b : SBuf) (target : String) : SpillRes :=
  if b.ptrType.str = target then ⟨b, none, [], env.mem⟩
  else if b.spillable = false then ⟨b, some Err.illegalState, [], env.mem⟩
  else if b.ptrType = PtrType.gpu ∧ target = "cpu" then
    let hostMem := readDev env.mem b.ptr b.size
    ⟨{ b with
        ptrType := PtrType.cpu, hostView := some hostMem,
        ptr := 0, hasOwner := false },
      none, [Event.logSpill PtrType.gpu PtrType.cpu b.size], env.mem⟩
  else if b.ptrType = PtrType.cpu ∧ target = "gpu" then
    match b.hostView with
    | none => ⟨b, some Err.keyError, [], env.mem⟩
    | some mv =>
      match env.allocAddr with
      | none => ⟨{ b with hostView := none }, some Err.outOfMemory, [], env.mem⟩
      | some addr =>
        if b.size = mv.length then
          ⟨{ b with
              ptrType := PtrType.gpu, hostView := none,
              ptr := addr, hasOwner := true },
            none, [Event.logSpill PtrType.cpu PtrType.gpu b.size],
            writeList env.mem addr mv⟩
        else
          ⟨{ b with
              hostView := none, ptr := addr, hasOwner := true },
            some Err.assertionError, [], writeList env.mem addr mv⟩
  else ⟨b, some Err.invalidArgument, [], env.mem⟩

/-- Result of a pointer-returning operation (`ptr`, `get_ptr`,
`mutable_ptr`): state, error, events, memory and the returned address. -/
structure PtrRes where
  buf : SBuf
  err : Option Err
  events : List Event
  mem : Nat → Nat
  ret : Option Nat

/-- The `SpillableBuffer.ptr` property: call `spill_to_device_limit` on the
manager, log an exposure event when not already exposed, unspill to device,
set `_exposed` permanently, refresh `_last_accessed` and return `_ptr`. -/
def SBuf.ptrProp (env : SEnv) (b : SBuf) : PtrRes :=
  let evs := Event.spillToDeviceLimit ::
    (if b.exposed then [] else [Event.logExpose])
  let r := b.spill env "gpu"
  match r.err with
  | some e => ⟨r.buf, some e, evs ++ r.events, r.mem, none⟩
  | none =>
    let b2 := { r.buf with exposed := true, lastAccessed := env.clock }
    ⟨b2, none, evs ++ r.events, r.mem, some b2.ptr⟩

/-- The `SpillableBuffer.spill_lock(spill_lock)` method with a live token
`tok`: unspill to device, then add the token to the weak set. -/
def SBuf.spillLockOp (env : SEnv) (b : SBuf) (tok : Nat) : SpillRes :=
  let r := b.spill env "gpu"
  match r.err with
  | some e => ⟨r.buf, some e, r.events, r.mem⟩
  | none => ⟨{ r.buf with spillLocks := tok :: r.buf.spillLocks },
      none, r.events, r.mem⟩

/-- The `SpillableBuffer.get_ptr(spill_lock)` method: with no lock it is
exactly the `ptr` property (permanent exposure); with a lock it spill-locks
the buffer, refreshes `_last_accessed` and returns `_ptr`. -/
def SBuf.getPtr (env : SEnv) (b : SBuf) (lock : Option Nat) : PtrRes :=
  match lock with
  | none => b.ptrProp env
  | some tok =>
    let r := b.spillLockOp env tok
    match r.err with
    | some e => ⟨r.buf, some e, r.events, r.mem, none⟩
    | none =>
      let b2 := { r.buf with lastAccessed := env.clock }
      ⟨b2, none, r.events, r.mem, some b2.ptr⟩

/-- The `SpillableBuffer.mutable_ptr` property:
`self.get_ptr(spill_lock=SpillLock())` with `tok` the identity of the fresh
`SpillLock` token, to which the caller keeps no reference. -/
def SBuf.mutablePtr (env : SEnv) (b : SBuf) (tok : Nat) : PtrRes :=
  b.getPtr env (some tok)

/-- Death of the weakly-referenced lock token `tok`: the weak set forgets it. -/
def SBuf.dropLock (b : SBuf) (tok : Nat) : SBuf :=
  { b with spillLocks := b.spillLocks.erase tok }

/-- Result of `SpillableBuffer.memoryview`. -/
structure MemviewRes where
  buf : SBuf
  err : Option Err
  events : List Event
  mem : Nat → Nat
  bytes : List Nat

/-- The `SpillableBuffer.memoryview(offset, size)` method: when spillable,
spill to host and return a slice of the buffer's own host bytes; otherwise
assert device residency and copy `size` bytes starting at `_ptr + offset`
into a fresh host bytearray, leaving the buffer untouched. -/
def SBuf.memview (env : SEnv) (b : SBuf) (offset : Nat) (sizeArg : Option Nat) :
    MemviewRes :=
  let sz := sizeArg.getD b.size
  if b.spillable then
    let r := b.spill env "cpu"
    match r.err with
    | some e => ⟨r.buf, some e, r.events, r.mem, []⟩
    | none =>
      match r.buf.hostView with
      | none => ⟨r.buf, some Err.keyError, r.events, r.mem, []⟩
      | some hv => ⟨r.buf, none, r.events, r.mem, (hv.drop offset).take sz⟩
  else
    if b.ptrType = PtrType.gpu then
      ⟨b, none, [], env.mem, readDev env.mem (b.ptr + offset) sz⟩
    else
      ⟨b, some Err.assertionError, [], env.mem, []⟩

/-- The `__cuda_array_interface__` descriptor of a `SpillableBuffer`.  Its
`data` field is a `DelayedPointerTuple` holding the buffer itself (a delayed
accessor), not a resolved integer address. -/
structure CAIDesc where
  dataDelayed : SBuf
  shape : Nat
  typestr : String
  version : Nat
deriving DecidableEq, Repr

/-- Constructing `SpillableBuffer.__cuda_array_interface__`: it only reads
`self.size` and wraps `self` in a `DelayedPointerTuple`; the buffer state is
returned unchanged and no manager event is emitted. -/
def SBuf.cudaArrayInterface (b : SBuf) : SBuf × CAIDesc :=
  (b, ⟨b, b.size, "|u1", 0⟩)

/-- A resolved item of the delayed `data` tuple. -/
inductive DPTItem where
  | address (p : Nat)
  | readonlyFlag (r : Bool)
deriving DecidableEq, Repr

/-- Result of `DelayedPointerTuple.__getitem__`. -/
structure DPTRes where
  buf : SBuf
  err : Option Err
  events : List Event
  mem : Nat → Nat
  item : Option DPTItem

/-- The `DelayedPointerTuple.__getitem__(i)` method: index 0 resolves
`self._buf.ptr` (forcing residency and permanent exposure), index 1 returns
`False`, anything else raises `IndexError`. -/
def SBuf.dptGetItem (env : SEnv) (b : SBuf) (i : Nat) : DPTRes :=
  if i = 0 then
    let r := b.ptrProp env
    ⟨r.buf, r.err, r.events, r.mem, r.ret.map DPTItem.address⟩
  else if i = 1 then
    ⟨b, none, [], env.mem, some (DPTItem.readonlyFlag false)⟩
  else
    ⟨b, some Err.indexError, [], env.mem, none⟩

/-- The operations of the embedded `SpillableBuffer` interface, used to state
invariants over every operation. -/
inductive SOp where
  | spillTo (target : String)
  | exposePtr
  | getPointer (lock : Option Nat)
  | lockScope (tok : Nat)
  | memoryView (offset : Nat) (sz : Option Nat)
  | caiItem (i : Nat)
  | weakDrop (tok : Nat)

/-- The buffer state after running one operation. -/
def SBuf.step (env : SEnv) (b : SBuf) : SOp → SBuf
  | SOp.spillTo t => (b.spill env t).buf
  | SOp.exposePtr => (b.ptrProp env).buf
  | SOp.getPointer l => (b.getPtr env l).buf
  | SOp.lockScope tok => (b.spillLockOp env tok).buf
  | SOp.memoryView o s => (b.memview env o s).buf
  | SOp.caiItem i => (b.dptGetItem env i).buf
  | SOp.weakDrop tok => b.dropLock tok

/-- A `SpillableBufferSlice`: per its `__init__` it stores only the base
buffer, the offset and the size; it has no `_ptr_desc`, `_spill_locks` or
`_exposed` of its own. -/
structure SSlice where
  base : SBuf
  offset : Nat
  size : Nat
deriving DecidableEq, Repr

/-- The `SpillableBufferSlice` constructor check
`offset + size > base.size` (negative values are unrepresentable here). -/
def mkSlice (base : SBuf) (offset sz : Nat) : Option SSlice :=
  if base.size < offset + sz then none else some ⟨base, offset, sz⟩

/-- Slice `spill`: `return self._base.spill(target=target)`. -/
def SSlice.spillOp (env : SEnv) (s : SSlice) (target : String) :
    SSlice × Option Err × List Event :=
  let r := s.base.spill env target
  (⟨r.buf, s.offset, s.size⟩, r.err, r.events)

/-- Slice `is_spilled`: `return self._base.is_spilled`. -/
def SSlice.isSpilledP (s : SSlice) : Bool := s.base.isSpilled

/-- Slice `exposed`: `return self._base.exposed`. -/
def SSlice.exposedP (s : SSlice) : Bool := s.base.exposed

/-- Slice `spillable`: `return self._base.spillable`. -/
def SSlice.spillableP (s : SSlice) : Bool := s.base.spillable

/-- Slice `spill_lock`: `self._base.spill_lock(spill_lock=spill_lock)`. -/
def SSlice.spillLockOp (env : SEnv) (s : SSlice) (tok : Nat) :
    SSlice × Option Err × List Event :=
  let r := s.base.spillLockOp env tok
  (⟨r.buf, s.offset, s.size⟩, r.err, r.events)

/-- Slice `get_ptr`:
`return self._base.get_ptr(spill_lock=spill_lock) + self._offset`. -/
def SSlice.getPtr (env : SEnv) (s : SSlice) (lock : Option Nat) :
    SSlice × Option Err × List Event × Option Nat :=
  let r := s.base.getPtr env lock
  (⟨r.buf, s.offset, s.size⟩, r.err, r.events, r.ret.map fun p => p + s.offset)

/-- Slice `memoryview`:
`self._base.memoryview(offset=self._offset + offset, size=size)` with the
default size being the slice's own size. -/
def SSlice.memview (env : SEnv) (s : SSlice) (offset : Nat)
    (sizeArg : Option Nat) : SSlice × MemviewRes :=
  let sz := sizeArg.getD s.size
  let r := s.base.memview env (s.offset + offset) (some sz)
  (⟨r.buf, s.offset, s.size⟩, r)

/-- State of one `CopyOnWriteBuffer` instance: its `_ptr`, `_size` and
`_zero_copied` flag. -/
structure CowBuf where
  ptr : Nat
  size : Nat
  zeroCopied : Bool
deriving DecidableEq, Repr

/-- Shared world of the copy-on-write registry: device memory, a bump
allocator frontier (every live allocation sits strictly below `nextFree`;
`rmm` allocations are modelled as returning the frontier address), and
`registry p` = the number of live `CopyOnWriteBuffer` instances in the
weak set `_instances[p]`. -/
structure CowWorld where
  mem : Nat → Nat
  nextFree : Nat
  registry : Nat → Nat

/-- Add one member to the weak set at key `p`
(`_instances[self._ptr].add(self)` in `_finalize_init`). -/
def bumpReg (r : Nat → Nat) (p : Nat) : Nat → Nat :=
  fun q => if q = p then r p + 1 else r q

/-- Copy the `n`-byte region at `src` to the (disjoint, fresh) region at
`dst` (`rmm.DeviceBuffer(ptr=src, size=n)` / `DeviceBuffer.copy`). -/
def copyRegion (m : Nat → Nat) (src dst n : Nat) : Nat → Nat :=
  fun a => if dst ≤ a ∧ a < dst + n then m (src + (a - dst)) else m a

/-- The `CopyOnWriteBuffer._is_shared` property:
`len(self._instances) > 1`. -/
def CowBuf.isShared (w : CowWorld) (b : CowBuf) : Bool :=
  decide (1 < w.registry b.ptr)

/-- Allocate a fresh device region, copy the `n` bytes at `srcPtr` into it,
and register the resulting buffer (`_from_device_memory` applied to
`rmm.DeviceBuffer(ptr=srcPtr, size=n)`, which leaves `_zero_copied` false). -/
def cowFromDeviceCopy (w : CowWorld) (srcPtr n : Nat) : CowWorld × CowBuf :=
  let addr := w.nextFree
  (⟨copyRegion w.mem srcPtr addr n, addr + n, bumpReg w.registry addr⟩,
    ⟨addr, n, false⟩)

/-- The `CopyOnWriteBuffer.copy(deep)` method: a shallow copy of a
non-zero-copied buffer registers a new instance aliasing the same `_ptr`;
otherwise a new physical region is allocated and the bytes are copied. -/
def CowBuf.copy (w : CowWorld) (b : CowBuf) (deep : Bool) : CowWorld × CowBuf :=
  if deep = false ∧ b.zeroCopied = false then
    ({ w with registry := bumpReg w.registry b.ptr }, ⟨b.ptr, b.size, false⟩)
  else
    cowFromDeviceCopy w b.ptr b.size

/-- The `CopyOnWriteBuffer._unlink_shared_buffers` method: when not
zero-copied and shared, wrap the current region (`rmm.DeviceBuffer`), deep
copy it (`.copy()`), rebind `_ptr`/`_owner` to the new region and re-run
`_finalize_init` (registering under the new key and clearing
`_zero_copied`); otherwise do nothing. -/
def CowBuf.unlink (w : CowWorld) (b : CowBuf) : CowWorld × CowBuf :=
  if b.zeroCopied = false ∧ b.isShared w = true then
    let a1 := w.nextFree
    let m1 := copyRegion w.mem b.ptr a1 b.size
    let a2 := a1 + b.size
    let m2 := copyRegion m1 a1 a2 b.size
    (⟨m2, a2 + b.size, bumpReg w.registry a2⟩, ⟨a2, b.size, false⟩)
  else (w, b)

/-- The `CopyOnWriteBuffer.mutable_ptr` property: unlink shared buffers,
then return `self._ptr`. -/
def CowBuf.mutablePtr (w : CowWorld) (b : CowBuf) : CowWorld × CowBuf × Nat :=
  let p := b.unlink w
  (p.1, p.2, p.2.ptr)

/-- The `CopyOnWriteBuffer.ptr` property: unlink shared buffers, set
`_zero_copied = True` permanently, return `self._ptr`. -/
def CowBuf.ptrAccessor (w : CowWorld) (b : CowBuf) : CowWorld × CowBuf × Nat :=
  let p := b.unlink w
  (p.1, { p.2 with zeroCopied := true }, p.2.ptr)

/-- The `CopyOnWriteBuffer.__cuda_array_interface__` property: unlink, set
`_zero_copied = True`, return the descriptor whose `data` field is the plain
resolved pair `(self._ptr, readonly=False)`. -/
def CowBuf.cudaArrayInterface (w : CowWorld) (b : CowBuf) :
    CowWorld × CowBuf × (Nat × Bool) :=
  let p := b.unlink w
  (p.1, { p.2 with zeroCopied := true }, (p.2.ptr, false))

/-- Operations on one `CopyOnWriteBuffer` instance. -/
inductive CowOp where
  | copyOp (deep : Bool)
  | mutPtrOp
  | rawPtrOp
  | caiOp

/-- The instance's own state after one operation (`copy` returns a new
buffer and leaves `self` untouched). -/
def CowBuf.step (w : CowWorld) (b : CowBuf) : CowOp → CowBuf
  | CowOp.copyOp _ => b
  | CowOp.mutPtrOp => (b.mutablePtr w).2.1
  | CowOp.rawPtrOp => (b.ptrAccessor w).2.1
  | CowOp.caiOp => (b.cudaArrayInterface w).2.1

/-! Concrete instances used to evaluate the theorems on closed inputs. -/

/-- An environment whose next device allocation succeeds at address 1000. -/
def env0 : SEnv := ⟨fun _ => 0, some 1000, 7⟩

/-- An environment whose next device allocation fails with OutOfMemory. -/
def envOOM : SEnv := ⟨fun _ => 0, none, 0⟩

/-- A 3-byte spilled (host) buffer holding bytes `[1, 2, 3]`. -/
def hostBuf3 : SBuf := ⟨PtrType.cpu, some [1, 2, 3], 0, false, 3, false, [], 0⟩

/-- A device buffer protected by one live spill lock (token 5). -/
def gpuLockedBuf : SBuf := ⟨PtrType.gpu, none, 100, true, 4, false, [5], 0⟩

/-- A permanently exposed device buffer. -/
def gpuExposedBuf : SBuf := ⟨PtrType.gpu, none, 100, true, 4, true, [], 0⟩

/-- An unexposed, unlocked (hence spillable) device buffer. -/
def gpuFreeBuf : SBuf := ⟨PtrType.gpu, none, 100, true, 4, false, [], 0⟩

/-- A slice of `gpuFreeBuf` covering bytes 1 and 2. -/
def sliceOfFree : SSlice := ⟨gpuFreeBuf, 1, 2⟩

/-- A world with one registered copy-on-write buffer at pointer 0. -/
def cowWorld0 : CowWorld :=
  ⟨fun a => if a < 4 then a + 10 else 0, 4, fun q => if q = 0 then 1 else 0⟩

/-- The copy-on-write buffer registered at pointer 0 in `cowWorld0`. -/
def cowBuf0 : CowBuf := ⟨0, 4, false⟩

/-- A zero-copied copy-on-write buffer at pointer 0. -/
def cowBufZC : CowBuf := ⟨0, 4, true⟩

/-! Helper lemmas about `SBuf.spill`. -/

lemma gpu_ne_cpu_str : ("gpu" : String) ≠ "cpu" := by decide

lemma cpu_ne_gpu_str : ("cpu" : String) ≠ "gpu" := by decide

lemma spill_frame (env : SEnv) (b : SBuf) (t : String) :
    (b.spill env t).buf.exposed = b.exposed ∧
    (b.spill env t).buf.spillLocks = b.spillLocks ∧
    (b.spill env t).buf.size = b.size ∧
    (b.spill env t).buf.lastAccessed = b.lastAccessed := by
  unfold SBuf.spill
  repeat' split
  all_goals exact ⟨rfl, rfl, rfl, rfl⟩

lemma spill_exposed (env : SEnv) (b : SBuf) (t : String) :
    (b.spill env t).buf.exposed = b.exposed :=
  (spill_frame env b t).1

lemma spill_locks (env : SEnv) (b : SBuf) (t : String) :
    (b.spill env t).buf.spillLocks = b.spillLocks :=
  (spill_frame env b t).2.1

lemma ptrType_str_eq_gpu (p : PtrType) : p.str = "gpu" ↔ p = PtrType.gpu := by
  cases p <;> simp [PtrType.str]

lemma ptrType_str_eq_cpu (p : PtrType) : p.str = "cpu" ↔ p = PtrType.cpu := by
  cases p <;> simp [PtrType.str]

lemma spill_gpu_ok_loc (env : SEnv) (b : SBuf)
    (h : (b.spill env "gpu").err = none) :
    (b.spill env "gpu").buf.ptrType = PtrType.gpu := by
  cases hb : b.ptrType
  · simp [SBuf.spill, PtrType.str, hb]
  · by_cases hs : b.spillable = false
    · simp [SBuf.spill, PtrType.str, hs, hb] at h
    · cases hmv : b.hostView with
      | none => simp [SBuf.spill, PtrType.str, hs, hb, hmv] at h
      | some mv =>
        cases ha : env.allocAddr with
        | none => simp [SBuf.spill, PtrType.str, hs, hb, hmv, ha] at h
        | some addr =>
          by_cases hsz : b.size = mv.length
          · simp [SBuf.spill, PtrType.str, hs, hb, hmv, ha, hsz]
          · simp [SBuf.spill, PtrType.str, hs, hb, hmv, ha, hsz] at h

lemma readDev_congr (m1 m2 : Nat → Nat) (p n : Nat)
    (h : ∀ a, p ≤ a → a < p + n → m1 a = m2 a) :
    readDev m1 p n = readDev m2 p n := by
  unfold readDev
  apply List.map_congr_left
  intro i hi
  exact h (p + i) (Nat.le_add_right p i)
    (by have := List.mem_range.mp hi; omega)

lemma readDev_length (m : Nat → Nat) (p n : Nat) :
    (readDev m p n).length = n := by
  simp [readDev]

lemma readDev_slice (m : Nat → Nat) (p n offset sz : Nat)
    (h : offset + sz ≤ n) :
    ((readDev m p n).drop offset).take sz = readDev m (p + offset) sz := by
  apply List.ext_getElem
  · simp [readDev]
    omega
  · intro i h1 h2
    simp [readDev]
    ring_nf

lemma writeByte_readDev_outside (m : Nat → Nat) (a v p n : Nat)
    (h : a < p ∨ p + n ≤ a) :
    readDev (writeByte m a v) p n = readDev m p n := by
  apply readDev_congr
  intro x hx1 hx2
  unfold writeByte
  have : x ≠ a := by omega
  simp [this]

lemma copyRegion_readDev_outside (m : Nat → Nat) (src dst n p k : Nat)
    (h : p + k ≤ dst) :
    readDev (copyRegion m src dst n) p k = readDev m p k := by
  apply readDev_congr
  intro x hx1 hx2
  unfold copyRegion
  have : ¬(dst ≤ x ∧ x < dst + n) := by omega
  simp [this]

lemma copyRegion_readDev_self (m : Nat → Nat) (src dst n : Nat) :
    readDev (copyRegion m src dst n) dst n = readDev m src n := by
  apply List.ext_getElem
  · simp [readDev]
  · intro i h1 h2
    simp only [readDev, List.getElem_map, List.getElem_range, copyRegion]
    have hb : i < n := by simpa [readDev] using h1
    have : dst ≤ dst + i ∧ dst + i < dst + n := by omega
    simp [this]

/-! Helper lemmas about the pointer-returning operations. -/

lemma spill_no_logExpose (env : SEnv) (b : SBuf) (t : String) :
    Event.logExpose ∉ (b.spill env t).events := by
  unfold SBuf.spill
  repeat' split
  all_goals simp

lemma ptrProp_exposed_mono (env : SEnv) (b : SBuf) (h : b.exposed = true) :
    (b.ptrProp env).buf.exposed = true := by
  unfold SBuf.ptrProp
  cases he : (SBuf.spill env b "gpu").err with
  | some e => simp [he, spill_exposed, h]
  | none => simp [he]

lemma spillLockOp_exposed (env : SEnv) (b : SBuf) (tok : Nat) :
    (b.spillLockOp env tok).buf.exposed = b.exposed := by
  unfold SBuf.spillLockOp
  cases he : (SBuf.spill env b "gpu").err with
  | some e => simp [he, spill_exposed]
  | none => simp [he, spill_exposed]

lemma memview_exposed (env : SEnv) (b : SBuf) (o : Nat) (s : Option Nat) :
    (b.memview env o s).buf.exposed = b.exposed := by
  unfold SBuf.memview
  by_cases hs : b.spillable
  · cases he : (SBuf.spill env b "cpu").err with
    | some e => simp [hs, he, spill_exposed]
    | none =>
      cases hv : (SBuf.spill env b "cpu").buf.hostView <;>
        simp [hs, he, hv, spill_exposed]
  · by_cases hg : b.ptrType = PtrType.gpu <;> simp [hs, hg]

/-- Exposure is monotone: no operation of the interface ever clears the
`_exposed` flag. -/
lemma step_exposed_mono (env : SEnv) (b : SBuf) (op : SOp)
    (h : b.exposed = true) : (b.step env op).exposed = true := by
  cases op with
  | spillTo t => simpa [SBuf.step, spill_exposed] using h
  | exposePtr => exact ptrProp_exposed_mono env b h
  | getPointer l =>
    cases l with
    | none => exact ptrProp_exposed_mono env b h
    | some tok =>
      simp only [SBuf.step, SBuf.getPtr]
      cases he : (SBuf.spillLockOp env b tok).err with
      | some e => simpa [he, spillLockOp_exposed] using h
      | none => simpa [he, spillLockOp_exposed] using h
  | lockScope tok => simpa [SBuf.step, spillLockOp_exposed] using h
  | memoryView o s => simpa [SBuf.step, memview_exposed] using h
  | caiItem i =>
    simp only [SBuf.step, SBuf.dptGetItem]
    by_cases h0 : i = 0
    · simpa [h0] using ptrProp_exposed_mono env b h
    · by_cases h1 : i = 1 <;> simpa [h0, h1] using h
  | weakDrop tok => simpa [SBuf.step, SBuf.dropLock] using h

/-! Claim C1: allocation failure during host-to-device recovery. -/

/-- C1 (counterexample): on a concrete spilled 3-byte buffer, an OutOfMemory
failure of the device allocation during `spill(target="gpu")` does propagate,
but the buffer state is NOT unchanged: the host bytes were already popped
from `_ptr_desc` before the allocation was attempted, so the buffer no
longer holds them. -/
theorem spill_oom_state_changed_cex :
    (SBuf.spill envOOM hostBuf3 "gpu").err = some Err.outOfMemory ∧
    (SBuf.spill envOOM hostBuf3 "gpu").buf ≠ hostBuf3 ∧
    (SBuf.spill envOOM hostBuf3 "gpu").buf.hostView = none ∧
    hostBuf3.hostView = some [1, 2, 3] := by
  decide

/-- C1 (amended): for every host-resident spillable buffer, when the device
allocation of `spill(target="gpu")` fails with OutOfMemory the error
propagates to the caller, the location stays host, the exposed flag and the
lock set are untouched, and no statistics are logged — but the buffer no
longer holds its host bytes, because `_ptr_desc.pop("memoryview")` runs
before the allocation is attempted; only the `hostView` field changes. -/
theorem spill_oom_host_bytes_lost (env : SEnv) (b : SBuf) (mv : List Nat)
    (hcpu : b.ptrType = PtrType.cpu) (hmv : b.hostView = some mv)
    (hsp : b.spillable = true) (halloc : env.allocAddr = none) :
    (b.spill env "gpu").err = some Err.outOfMemory ∧
    (b.spill env "gpu").buf = { b with hostView := none } ∧
    (b.spill env "gpu").events = [] ∧
    (b.spill env "gpu").mem = env.mem := by
  have hs' : ¬ b.spillable = false := by simp [hsp]
  simp [SBuf.spill, PtrType.str, hcpu, hmv, hs', halloc]

/-- Witness for C1 (amended) at a concrete input. -/
theorem spill_oom_host_bytes_lost_witness :
    (SBuf.spill envOOM hostBuf3 "gpu").buf = { hostBuf3 with hostView := none } ∧
    (SBuf.spill envOOM hostBuf3 "gpu").err = some Err.outOfMemory :=
  ⟨(spill_oom_host_bytes_lost envOOM hostBuf3 [1, 2, 3] rfl rfl rfl rfl).2.1,
   (spill_oom_host_bytes_lost envOOM hostBuf3 [1, 2, 3] rfl rfl rfl rfl).1⟩

/-! Claim C2: the spillable predicate and spilling an unspillable buffer. -/

/-- C2: a spillable buffer is exactly one that is neither permanently
exposed nor covered by a live spill lock, and `spill("cpu")` on a
device-resident unspillable buffer fails with IllegalState and leaves the
buffer on device, unchanged. -/
theorem spillable_iff_and_unspillable_spill_illegal (env : SEnv) (b : SBuf) :
    (b.spillable = false ↔ (b.exposed = true ∨ b.spillLocks ≠ [])) ∧
    (b.ptrType = PtrType.gpu → b.spillable = false →
      (b.spill env "cpu").err = some Err.illegalState ∧
      (b.spill env "cpu").buf = b ∧
      (b.spill env "cpu").buf.ptrType = PtrType.gpu) := by
  constructor
  · cases hx : b.exposed <;> cases hl : b.spillLocks <;>
      simp [SBuf.spillable, hx, hl]
  · intro hg hs
    have h1 : b.ptrType.str ≠ "cpu" := by simp [hg, PtrType.str]
    refine ⟨?_, ?_, ?_⟩ <;> simp [SBuf.spill, PtrType.str, h1, hs, hg]

/-- Witness for C2 at a concrete locked device buffer. -/
theorem spillable_iff_and_unspillable_spill_illegal_witness :
    gpuLockedBuf.spillable = false ∧
    (SBuf.spill env0 gpuLockedBuf "cpu").err = some Err.illegalState := by
  have h := spillable_iff_and_unspillable_spill_illegal env0 gpuLockedBuf
  have hs : gpuLockedBuf.spillable = false :=
    h.1.mpr (Or.inr (by decide))
  exact ⟨hs, (h.2 rfl hs).1⟩

/-! Claim C6: unknown spill target. -/

/-- C6 (counterexample): on a concrete permanently exposed device buffer,
`spill("disk")` fails with IllegalState, not InvalidArgument — the
spillable check precedes the target check, so the error is NOT
InvalidArgument regardless of the protection state. -/
theorem spill_unknown_target_unspillable_cex :
    (SBuf.spill env0 gpuExposedBuf "disk").err = some Err.illegalState ∧
    (SBuf.spill env0 gpuExposedBuf "disk").err ≠ some Err.invalidArgument := by
  decide

/-- C6 (amended): for every buffer and target other than "cpu" and "gpu",
`spill(target)` fails and leaves the buffer unchanged; the error is
InvalidArgument when the buffer is spillable, but IllegalState when it is
not, because the protection check runs before the target is validated. -/
theorem spill_unknown_target_error (env : SEnv) (b : SBuf) (t : String)
    (h1 : t ≠ "cpu") (h2 : t ≠ "gpu") :
    (b.spill env t).buf = b ∧
    (b.spill env t).events = [] ∧
    (b.spill env t).err =
      some (if b.spillable = true then Err.invalidArgument
            else Err.illegalState) := by
  have hstr : b.ptrType.str ≠ t := by
    cases hb : b.ptrType
    · exact fun hh => h2 hh.symm
    · exact fun hh => h1 hh.symm
  by_cases hs : b.spillable = false
  · have hs' : ¬ b.spillable = true := by simp [hs]
    simp [SBuf.spill, hstr, hs, hs']
  · have hs' : b.spillable = true := by
      revert hs; cases b.spillable <;> simp
    have h3 : ¬(b.ptrType = PtrType.gpu ∧ t = "cpu") := fun h => h1 h.2
    have h4 : ¬(b.ptrType = PtrType.cpu ∧ t = "gpu") := fun h => h2 h.2
    simp [SBuf.spill, hstr, hs, h3, h4, hs']

/-- Witness for C6 (amended) at a concrete spillable device buffer. -/
theorem spill_unknown_target_error_witness :
    (SBuf.spill env0 gpuFreeBuf "disk").err = some Err.invalidArgument ∧
    (SBuf.spill env0 gpuFreeBuf "disk").buf = gpuFreeBuf := by
  have h := spill_unknown_target_error env0 gpuFreeBuf "disk"
    (by decide) (by decide)
  refine ⟨?_, h.1⟩
  rw [h.2.2]
  decide

/-! Claim C5: the `ptr` property exposes permanently. -/

/-- C5: accessing the raw pointer without a lock (the `ptr` property, to
which `get_ptr` with the lock omitted is identical) first asks the manager
to spill to the device limit, ensures device residency, sets the exposed
flag, logs an exposure event exactly when the buffer was not already
exposed, and returns the device address; and the exposed flag, once true,
is never cleared by any operation of the interface, so an exposed buffer is
never spillable again. -/
theorem ptr_exposes_permanently (env : SEnv) (b : SBuf)
    (h : (b.spill env "gpu").err = none) :
    (b.ptrProp env).err = none ∧
    (b.ptrProp env).buf.ptrType = PtrType.gpu ∧
    (b.ptrProp env).buf.exposed = true ∧
    (b.ptrProp env).buf.lastAccessed = env.clock ∧
    (b.ptrProp env).ret = some (b.ptrProp env).buf.ptr ∧
    (b.ptrProp env).events.head? = some Event.spillToDeviceLimit ∧
    (Event.logExpose ∈ (b.ptrProp env).events ↔ b.exposed = false) ∧
    b.getPtr env none = b.ptrProp env ∧
    (∀ (env2 : SEnv) (c : SBuf) (op : SOp),
      c.exposed = true → (c.step env2 op).exposed = true) ∧
    (∀ c : SBuf, c.exposed = true → c.spillable = false) := by
  refine ⟨?_, ?_, ?_, ?_, ?_, ?_, ?_, rfl, step_exposed_mono, ?_⟩
  · simp [SBuf.ptrProp, h]
  · simpa [SBuf.ptrProp, h] using spill_gpu_ok_loc env b h
  · simp [SBuf.ptrProp, h]
  · simp [SBuf.ptrProp, h]
  · simp [SBuf.ptrProp, h]
  · simp [SBuf.ptrProp, h]
  · have hne := spill_no_logExpose env b "gpu"
    cases hx : b.exposed <;> simp [SBuf.ptrProp, h, hx, hne]
  · intro c hc
    simp [SBuf.spillable, hc]

/-- Witness for C5: exposing a concrete spillable device buffer. -/
theorem ptr_exposes_permanently_witness :
    (SBuf.ptrProp env0 gpuFreeBuf).buf.exposed = true ∧
    (SBuf.ptrProp env0 gpuFreeBuf).err = none :=
  ⟨(ptr_exposes_permanently env0 gpuFreeBuf rfl).2.2.1,
   (ptr_exposes_permanently env0 gpuFreeBuf rfl).1⟩

/-! Claim C9: `mutable_ptr` exposes nothing and protects only transiently. -/

/-- C9: `mutable_ptr` obtains the pointer through `get_ptr` with a fresh
SpillLock to which no reference is retained: it never sets the exposed
flag; once the token dies the lock set is back to what it was, so a buffer
with no other locks and no exposure is spillable again, and a subsequent
`spill("cpu")` succeeds — the returned address is not protected. -/
theorem mutable_ptr_transient (env env2 : SEnv) (b : SBuf) (tok : Nat)
    (h : (b.spill env "gpu").err = none) :
    (b.mutablePtr env tok).err = none ∧
    (b.mutablePtr env tok).buf.exposed = b.exposed ∧
    ((b.mutablePtr env tok).buf.dropLock tok).spillLocks = b.spillLocks ∧
    (b.spillLocks = [] → b.exposed = false →
      ((b.mutablePtr env tok).buf.dropLock tok).spillable = true) ∧
    (b.spillLocks = [] → b.exposed = false →
      (((b.mutablePtr env tok).buf.dropLock tok).spill env2 "cpu").err = none ∧
      (((b.mutablePtr env tok).buf.dropLock tok).spill env2 "cpu").buf.ptrType
        = PtrType.cpu) := by
  have hexp := spill_exposed env b "gpu"
  have hlocks := spill_locks env b "gpu"
  have hloc := spill_gpu_ok_loc env b h
  have hb2 : (b.mutablePtr env tok).buf =
      { (b.spill env "gpu").buf with
        spillLocks := tok :: (b.spill env "gpu").buf.spillLocks,
        lastAccessed := env.clock } := by
    simp [SBuf.mutablePtr, SBuf.getPtr, SBuf.spillLockOp, h]
  have herr : (b.mutablePtr env tok).err = none := by
    simp [SBuf.mutablePtr, SBuf.getPtr, SBuf.spillLockOp, h]
  have hdrop : ((b.mutablePtr env tok).buf.dropLock tok) =
      { (b.spill env "gpu").buf with
        spillLocks := (b.spill env "gpu").buf.spillLocks,
        lastAccessed := env.clock } := by
    rw [hb2]
    simp [SBuf.dropLock]
  refine ⟨herr, ?_, ?_, ?_, ?_⟩
  · rw [hb2]; exact hexp
  · rw [hdrop]; exact hlocks
  · intro hl he
    rw [hdrop]
    simp [SBuf.spillable, hexp, he, hlocks, hl]
  · intro hl he
    have hsp : ((b.mutablePtr env tok).buf.dropLock tok).spillable = true := by
      rw [hdrop]; simp [SBuf.spillable, hexp, he, hlocks, hl]
    have hgpu : ((b.mutablePtr env tok).buf.dropLock tok).ptrType
        = PtrType.gpu := by
      rw [hdrop]; exact hloc
    have hstr : ((b.mutablePtr env tok).buf.dropLock tok).ptrType.str ≠ "cpu" := by
      rw [hgpu]; simp [PtrType.str]
    have hsp' : ¬ ((b.mutablePtr env tok).buf.dropLock tok).spillable = false := by
      simp [hsp]
    constructor <;> simp [SBuf.spill, PtrType.str, hstr, hsp', hgpu]

/-- Witness for C9: a concrete device buffer stays unexposed and spillable
after `mutable_ptr` once the transient lock token dies. -/
theorem mutable_ptr_transient_witness :
    (SBuf.mutablePtr env0 gpuFreeBuf 9).buf.exposed = gpuFreeBuf.exposed ∧
    ((SBuf.mutablePtr env0 gpuFreeBuf 9).buf.dropLock 9).spillable = true :=
  ⟨(mutable_ptr_transient env0 env0 gpuFreeBuf 9 rfl).2.1,
   (mutable_ptr_transient env0 env0 gpuFreeBuf 9 rfl).2.2.2.1 rfl rfl⟩

/-! Claim C7: a slice delegates every location/lock operation to its base. -/

/-- C7: a `SpillableBufferSlice` holds only its base, offset and size;
`spill`, `spill_lock`, `is_spilled`, `exposed` and `spillable` all delegate
to the base buffer (the slice's resulting base is exactly the base's
result, with identical error and events), and `get_ptr` returns the base's
pointer plus the slice's fixed offset — so base and slice always observe
one shared location and protection state. -/
theorem slice_delegates_to_base (env : SEnv) (s : SSlice) (t : String)
    (tok : Nat) (lock : Option Nat) (o : Nat) (szArg : Option Nat) :
    (s.spillOp env t).1 = ⟨(s.base.spill env t).buf, s.offset, s.size⟩ ∧
    (s.spillOp env t).2.1 = (s.base.spill env t).err ∧
    (s.spillOp env t).2.2 = (s.base.spill env t).events ∧
    s.isSpilledP = s.base.isSpilled ∧
    s.exposedP = s.base.exposed ∧
    s.spillableP = s.base.spillable ∧
    (s.spillLockOp env tok).1 =
      ⟨(s.base.spillLockOp env tok).buf, s.offset, s.size⟩ ∧
    (s.spillLockOp env tok).2.1 = (s.base.spillLockOp env tok).err ∧
    (s.getPtr env lock).1 = ⟨(s.base.getPtr env lock).buf, s.offset, s.size⟩ ∧
    (s.getPtr env lock).2.2.2 =
      (s.base.getPtr env lock).ret.map (fun p => p + s.offset) ∧
    (s.memview env o szArg).1 =
      ⟨(s.base.memview env (s.offset + o) (some (szArg.getD s.size))).buf,
        s.offset, s.size⟩ ∧
    (s.memview env o szArg).2.bytes =
      (s.base.memview env (s.offset + o) (some (szArg.getD s.size))).bytes :=
  ⟨rfl, rfl, rfl, rfl, rfl, rfl, rfl, rfl, rfl, rfl, rfl, rfl⟩

/-! Claim C8: the CUDA array interface descriptor is lazy. -/

/-- C8: constructing `__cuda_array_interface__` changes no buffer state at
all (the `data` field is a delayed accessor holding the buffer, not a plain
integer) and emits no manager event; resolving index 1 of the data tuple is
also pure; only resolving index 0 runs the `ptr` property, which forces
device residency and permanent exposure and returns the resolved address. -/
theorem cai_construction_is_lazy (env : SEnv) (b : SBuf)
    (h : (b.spill env "gpu").err = none) :
    b.cudaArrayInterface.1 = b ∧
    b.cudaArrayInterface.2.dataDelayed = b ∧
    b.cudaArrayInterface.2.shape = b.size ∧
    (b.dptGetItem env 1).buf = b ∧
    (b.dptGetItem env 1).events = [] ∧
    (b.dptGetItem env 1).item = some (DPTItem.readonlyFlag false) ∧
    (b.dptGetItem env 2).buf = b ∧
    (b.dptGetItem env 2).err = some Err.indexError ∧
    (b.dptGetItem env 0).buf = (b.ptrProp env).buf ∧
    (b.dptGetItem env 0).buf.ptrType = PtrType.gpu ∧
    (b.dptGetItem env 0).buf.exposed = true ∧
    (b.dptGetItem env 0).item =
      some (DPTItem.address (b.dptGetItem env 0).buf.ptr) := by
  refine ⟨rfl, rfl, rfl, rfl, rfl, rfl, rfl, rfl, rfl, ?_, ?_, ?_⟩
  · simpa [SBuf.dptGetItem, SBuf.ptrProp, h] using spill_gpu_ok_loc env b h
  · simp [SBuf.dptGetItem, SBuf.ptrProp, h]
  · simp [SBuf.dptGetItem, SBuf.ptrProp, h]

/-- Witness for C8: on a concrete spilled host buffer, building the
descriptor is pure and resolving the data pointer unspills and exposes. -/
theorem cai_construction_is_lazy_witness :
    SBuf.cudaArrayInterface hostBuf3 = (hostBuf3, ⟨hostBuf3, 3, "|u1", 0⟩) ∧
    (SBuf.dptGetItem env0 hostBuf3 0).buf.exposed = true :=
  ⟨rfl, (cai_construction_is_lazy env0 hostBuf3 rfl).2.2.2.2.2.2.2.2.2.2.1⟩

/-! Claim C10: `memoryview` semantics. -/

/-- C10: `memoryview(offset, size)` on a spillable buffer relocates it to
host (a device-resident one is spilled, its host bytes becoming the device
contents; an already-host one is untouched) and returns the buffer's own
host bytes at the requested offset and size; on an unspillable
device-resident buffer it copies the requested bytes into a fresh host
allocation and leaves the buffer state (location included) unchanged.  In
all cases the returned bytes are the buffer's contents at the requested
offset and size. -/
theorem memoryview_semantics (env : SEnv) (b : SBuf) (offset sz : Nat)
    (hb : offset + sz ≤ b.size) :
    (b.spillable = true → b.ptrType = PtrType.gpu →
      (b.memview env offset (some sz)).err = none ∧
      (b.memview env offset (some sz)).buf.ptrType = PtrType.cpu ∧
      (b.memview env offset (some sz)).buf.hostView =
        some (readDev env.mem b.ptr b.size) ∧
      (b.memview env offset (some sz)).bytes =
        readDev env.mem (b.ptr + offset) sz) ∧
    (∀ hv : List Nat, b.spillable = true → b.ptrType = PtrType.cpu →
      b.hostView = some hv →
      (b.memview env offset (some sz)).err = none ∧
      (b.memview env offset (some sz)).buf = b ∧
      (b.memview env offset (some sz)).bytes = (hv.drop offset).take sz) ∧
    (b.spillable = false → b.ptrType = PtrType.gpu →
      (b.memview env offset (some sz)).buf = b ∧
      (b.memview env offset (some sz)).err = none ∧
      (b.memview env offset (some sz)).bytes =
        readDev env.mem (b.ptr + offset) sz) := by
  refine ⟨?_, ?_, ?_⟩
  · intro hsp hg
    have hstr : b.ptrType.str ≠ "cpu" := by simp [hg, PtrType.str]
    have hs' : ¬ b.spillable = false := by simp [hsp]
    have hspill : b.spill env "cpu" =
        ⟨{ b with
            ptrType := PtrType.cpu,
            hostView := some (readDev env.mem b.ptr b.size),
            ptr := 0, hasOwner := false },
          none, [Event.logSpill PtrType.gpu PtrType.cpu b.size], env.mem⟩ := by
      simp [SBuf.spill, PtrType.str, hs', hg]
    refine ⟨?_, ?_, ?_, ?_⟩ <;>
      simp [SBuf.memview, hsp, hspill, readDev_slice env.mem b.ptr b.size offset sz hb]
  · intro hv hsp hcpu hhv
    have hstr : b.ptrType.str = "cpu" := by simp [hcpu, PtrType.str]
    have hspill : b.spill env "cpu" = ⟨b, none, [], env.mem⟩ := by
      simp [SBuf.spill, hstr]
    refine ⟨?_, ?_, ?_⟩ <;> simp [SBuf.memview, hsp, hspill, hhv]
  · intro hsp hg
    have hs' : ¬ b.spillable = true := by simp [hsp]
    refine ⟨?_, ?_, ?_⟩ <;> simp [SBuf.memview, hs', hg]

/-- Witness for C10: a concrete spillable device buffer is relocated to
host by `memoryview` and the returned bytes match the device contents. -/
theorem memoryview_semantics_witness :
    (SBuf.memview env0 gpuFreeBuf 1 (some 2)).buf.ptrType = PtrType.cpu ∧
    (SBuf.memview env0 gpuFreeBuf 1 (some 2)).bytes =
      readDev env0.mem (gpuFreeBuf.ptr + 1) 2 :=
  ⟨((memoryview_semantics env0 gpuFreeBuf 1 2 (by decide)).1 rfl rfl).2.1,
   ((memoryview_semantics env0 gpuFreeBuf 1 2 (by decide)).1 rfl rfl).2.2.2⟩

/-! Helper lemmas about the copy-on-write buffer. -/

/-- The zero-copied flag is monotone: no operation of the interface ever
clears `_zero_copied` (unlink is skipped on zero-copied buffers, so its
`_finalize_init` reset is unreachable from them). -/
lemma cow_step_mono (w : CowWorld) (b : CowBuf) (op : CowOp)
    (h : b.zeroCopied = true) : (b.step w op).zeroCopied = true := by
  have hu : b.unlink w = (w, b) := by
    unfold CowBuf.unlink
    simp [h]
  cases op with
  | copyOp d => exact h
  | mutPtrOp => simp [CowBuf.step, CowBuf.mutablePtr, hu, h]
  | rawPtrOp => simp [CowBuf.step, CowBuf.ptrAccessor, hu]
  | caiOp => simp [CowBuf.step, CowBuf.cudaArrayInterface, hu]

/-! Claim C3: copy-on-write isolation. -/

/-- C3: for a registered, live buffer `a` and `b = a.copy(deep=false)`,
`a` and `b` read identical bytes, and a mutation through `b.mutable_ptr`
never changes the bytes subsequently read through `a`: obtaining the
mutable pointer of a shared, non-zero-copied buffer first rebinds `b` to a
fresh physical copy, and a zero-copied `a` already produced a physically
fresh `b` at copy time. -/
theorem cow_copy_on_write_isolation (w w1 w2 : CowWorld) (a b b2 : CowBuf)
    (p i v : Nat)
    (hreg : 1 ≤ w.registry a.ptr)
    (hval : a.ptr + a.size ≤ w.nextFree)
    (hfresh : ∀ q, w.nextFree ≤ q → w.registry q = 0)
    (hcopy : a.copy w false = (w1, b))
    (hmut : b.mutablePtr w1 = (w2, b2, p))
    (hi : i < b.size) :
    readDev w1.mem a.ptr a.size = readDev w1.mem b.ptr b.size ∧
    readDev (writeByte w2.mem (p + i) v) a.ptr a.size =
      readDev w2.mem a.ptr a.size := by
  cases hza : a.zeroCopied with
  | false =>
    -- shallow copy: `b` aliases `a`, both registered under the same key
    have hc : a.copy w false =
        ({ w with registry := bumpReg w.registry a.ptr },
          ⟨a.ptr, a.size, false⟩) := by
      simp [CowBuf.copy, hza]
    rw [hc] at hcopy
    simp only [Prod.mk.injEq] at hcopy
    obtain ⟨hw1, hb⟩ := hcopy
    subst hw1
    subst hb
    have hreg1 : bumpReg w.registry a.ptr a.ptr = w.registry a.ptr + 1 := by
      simp [bumpReg]
    have hshared : CowBuf.isShared
        { w with registry := bumpReg w.registry a.ptr }
        ⟨a.ptr, a.size, false⟩ = true := by
      simp [CowBuf.isShared, hreg1]
      omega
    have hm : CowBuf.mutablePtr { w with registry := bumpReg w.registry a.ptr }
        ⟨a.ptr, a.size, false⟩ =
        (⟨copyRegion (copyRegion w.mem a.ptr w.nextFree a.size) w.nextFree
            (w.nextFree + a.size) a.size,
          w.nextFree + a.size + a.size,
          bumpReg (bumpReg w.registry a.ptr) (w.nextFree + a.size)⟩,
          ⟨w.nextFree + a.size, a.size, false⟩, w.nextFree + a.size) := by
      simp [CowBuf.mutablePtr, CowBuf.unlink, hshared]
    rw [hm] at hmut
    simp only [Prod.mk.injEq] at hmut
    obtain ⟨hw2, hb2, hp⟩ := hmut
    subst hw2
    subst hb2
    subst hp
    refine ⟨rfl, ?_⟩
    apply writeByte_readDev_outside
    right
    omega
  | true =>
    -- `a` is zero-copied: the shallow copy is already a physical copy
    have hc : a.copy w false =
        (⟨copyRegion w.mem a.ptr w.nextFree a.size, w.nextFree + a.size,
            bumpReg w.registry w.nextFree⟩,
          ⟨w.nextFree, a.size, false⟩) := by
      simp [CowBuf.copy, cowFromDeviceCopy, hza]
    rw [hc] at hcopy
    simp only [Prod.mk.injEq] at hcopy
    obtain ⟨hw1, hb⟩ := hcopy
    subst hw1
    subst hb
    have hreg0 : w.registry w.nextFree = 0 := hfresh w.nextFree (Nat.le_refl _)
    have hreg1 : bumpReg w.registry w.nextFree w.nextFree = 1 := by
      simp [bumpReg, hreg0]
    have hnotsh : CowBuf.isShared
        ⟨copyRegion w.mem a.ptr w.nextFree a.size, w.nextFree + a.size,
          bumpReg w.registry w.nextFree⟩
        ⟨w.nextFree, a.size, false⟩ = false := by
      simp [CowBuf.isShared, hreg1]
    have hm : CowBuf.mutablePtr
        ⟨copyRegion w.mem a.ptr w.nextFree a.size, w.nextFree + a.size,
          bumpReg w.registry w.nextFree⟩
        ⟨w.nextFree, a.size, false⟩ =
        (⟨copyRegion w.mem a.ptr w.nextFree a.size, w.nextFree + a.size,
            bumpReg w.registry w.nextFree⟩,
          ⟨w.nextFree, a.size, false⟩, w.nextFree) := by
      simp [CowBuf.mutablePtr, CowBuf.unlink, hnotsh]
    rw [hm] at hmut
    simp only [Prod.mk.injEq] at hmut
    obtain ⟨hw2, hb2, hp⟩ := hmut
    subst hw2
    subst hb2
    subst hp
    constructor
    · show readDev (copyRegion w.mem a.ptr w.nextFree a.size) a.ptr a.size =
        readDev (copyRegion w.mem a.ptr w.nextFree a.size) w.nextFree a.size
      rw [copyRegion_readDev_self]
      exact copyRegion_readDev_outside w.mem a.ptr w.nextFree a.size
        a.ptr a.size hval
    · apply writeByte_readDev_outside
      right
      omega

/-- Witness for C3: in a one-buffer world, shallow-copy then mutate through
the copy's mutable pointer; the original's bytes are unchanged. -/
theorem cow_copy_on_write_isolation_witness :
    readDev
      (writeByte
        (CowBuf.mutablePtr (CowBuf.copy cowWorld0 cowBuf0 false).1
          (CowBuf.copy cowWorld0 cowBuf0 false).2).1.mem
        ((CowBuf.mutablePtr (CowBuf.copy cowWorld0 cowBuf0 false).1
          (CowBuf.copy cowWorld0 cowBuf0 false).2).2.2 + 0) 7)
      cowBuf0.ptr cowBuf0.size =
    readDev
      (CowBuf.mutablePtr (CowBuf.copy cowWorld0 cowBuf0 false).1
        (CowBuf.copy cowWorld0 cowBuf0 false).2).1.mem
      cowBuf0.ptr cowBuf0.size :=
  (cow_copy_on_write_isolation cowWorld0
    (CowBuf.copy cowWorld0 cowBuf0 false).1
    (CowBuf.mutablePtr (CowBuf.copy cowWorld0 cowBuf0 false).1
      (CowBuf.copy cowWorld0 cowBuf0 false).2).1
    cowBuf0
    (CowBuf.copy cowWorld0 cowBuf0 false).2
    (CowBuf.mutablePtr (CowBuf.copy cowWorld0 cowBuf0 false).1
      (CowBuf.copy cowWorld0 cowBuf0 false).2).2.1
    (CowBuf.mutablePtr (CowBuf.copy cowWorld0 cowBuf0 false).1
      (CowBuf.copy cowWorld0 cowBuf0 false).2).2.2
    0 7
    (by decide) (by decide)
    (fun q hq => by
      have hne : q ≠ 0 := by
        simp [cowWorld0] at hq
        omega
      simp [cowWorld0, hne])
    rfl rfl (by decide)).2

/-! Claim C4: the raw-pointer accessor disables copy-on-write forever. -/

/-- C4: once the raw `ptr` accessor has run on a copy-on-write buffer, the
buffer is zero-copied, no later operation of the interface clears that
flag, and every subsequent `copy(deep=false)` performs a physical copy into
a newly allocated region (fresh pointer, same bytes) instead of registering
a new alias of the old allocation key. -/
theorem cow_ptr_zero_copied_permanent (w w1 w2 : CowWorld) (a a1 c : CowBuf)
    (p : Nat)
    (hval : a.ptr + a.size ≤ w.nextFree)
    (hsize : 0 < a.size)
    (hptr : a.ptrAccessor w = (w1, a1, p))
    (hcopy : a1.copy w1 false = (w2, c)) :
    a1.zeroCopied = true ∧
    (∀ (w3 : CowWorld) (op : CowOp), (a1.step w3 op).zeroCopied = true) ∧
    c.ptr = w1.nextFree ∧
    c.ptr ≠ a1.ptr ∧
    c.size = a1.size ∧
    w2.registry a1.ptr = w1.registry a1.ptr ∧
    readDev w2.mem c.ptr c.size = readDev w2.mem a1.ptr a1.size := by
  -- first, extract `a1`'s shape and validity from the `ptr` accessor
  have hshape : a1.zeroCopied = true ∧ a1.ptr + a1.size ≤ w1.nextFree ∧
      a1.size = a.size := by
    cases hz : a.zeroCopied with
    | true =>
      have hp2 : a.ptrAccessor w = (w, { a with zeroCopied := true }, a.ptr) := by
        simp [CowBuf.ptrAccessor, CowBuf.unlink, hz]
      rw [hp2] at hptr
      simp only [Prod.mk.injEq] at hptr
      obtain ⟨hw1, ha1, hpp⟩ := hptr
      subst hw1
      subst ha1
      exact ⟨rfl, hval, rfl⟩
    | false =>
      by_cases hsh : a.isShared w = true
      · have hp2 : a.ptrAccessor w =
            (⟨copyRegion (copyRegion w.mem a.ptr w.nextFree a.size) w.nextFree
                (w.nextFree + a.size) a.size,
              w.nextFree + a.size + a.size,
              bumpReg w.registry (w.nextFree + a.size)⟩,
              ⟨w.nextFree + a.size, a.size, true⟩, w.nextFree + a.size) := by
          simp [CowBuf.ptrAccessor, CowBuf.unlink, hz, hsh]
        rw [hp2] at hptr
        simp only [Prod.mk.injEq] at hptr
        obtain ⟨hw1, ha1, hpp⟩ := hptr
        subst hw1
        subst ha1
        refine ⟨rfl, ?_, rfl⟩
        show w.nextFree + a.size + a.size ≤ w.nextFree + a.size + a.size
        exact Nat.le_refl _
      · have hp2 : a.ptrAccessor w = (w, { a with zeroCopied := true }, a.ptr) := by
          simp [CowBuf.ptrAccessor, CowBuf.unlink, hz, hsh]
        rw [hp2] at hptr
        simp only [Prod.mk.injEq] at hptr
        obtain ⟨hw1, ha1, hpp⟩ := hptr
        subst hw1
        subst ha1
        exact ⟨rfl, hval, rfl⟩
  obtain ⟨hzc, hv1, hs1⟩ := hshape
  have hc : a1.copy w1 false =
      (⟨copyRegion w1.mem a1.ptr w1.nextFree a1.size, w1.nextFree + a1.size,
          bumpReg w1.registry w1.nextFree⟩,
        ⟨w1.nextFree, a1.size, false⟩) := by
    simp [CowBuf.copy, cowFromDeviceCopy, hzc]
  rw [hc] at hcopy
  simp only [Prod.mk.injEq] at hcopy
  obtain ⟨hw2, hcc⟩ := hcopy
  subst hw2
  subst hcc
  have hne : (w1.nextFree : Nat) ≠ a1.ptr := by omega
  have hne2 : a1.ptr ≠ w1.nextFree := fun h => hne h.symm
  refine ⟨hzc, fun w3 op => cow_step_mono w3 a1 op hzc, rfl, hne, rfl, ?_, ?_⟩
  · simp [bumpReg, hne2]
  · show readDev (copyRegion w1.mem a1.ptr w1.nextFree a1.size)
        w1.nextFree a1.size =
      readDev (copyRegion w1.mem a1.ptr w1.nextFree a1.size) a1.ptr a1.size
    rw [copyRegion_readDev_self]
    exact (copyRegion_readDev_outside w1.mem a1.ptr w1.nextFree a1.size
      a1.ptr a1.size hv1).symm

/-- Witness for C4: exposing the concrete registered buffer and then
shallow-copying it yields a fresh physical region. -/
theorem cow_ptr_zero_copied_permanent_witness :
    (CowBuf.ptrAccessor cowWorld0 cowBuf0).2.1.zeroCopied = true ∧
    (CowBuf.copy (CowBuf.ptrAccessor cowWorld0 cowBuf0).1
        (CowBuf.ptrAccessor cowWorld0 cowBuf0).2.1 false).2.ptr ≠
      (CowBuf.ptrAccessor cowWorld0 cowBuf0).2.1.ptr :=
  ⟨(cow_ptr_zero_copied_permanent cowWorld0
      (CowBuf.ptrAccessor cowWorld0 cowBuf0).1
      (CowBuf.copy (CowBuf.ptrAccessor cowWorld0 cowBuf0).1
        (CowBuf.ptrAccessor cowWorld0 cowBuf0).2.1 false).1
      cowBuf0
      (CowBuf.ptrAccessor cowWorld0 cowBuf0).2.1
      (CowBuf.copy (CowBuf.ptrAccessor cowWorld0 cowBuf0).1
        (CowBuf.ptrAccessor cowWorld0 cowBuf0).2.1 false).2
      (CowBuf.ptrAccessor cowWorld0 cowBuf0).2.2
      (by decide) (by decide) rfl rfl).1,
   (cow_ptr_zero_copied_permanent cowWorld0
      (CowBuf.ptrAccessor cowWorld0 cowBuf0).1
      (CowBuf.copy (CowBuf.ptrAccessor cowWorld0 cowBuf0).1
        (CowBuf.ptrAccessor cowWorld0 cowBuf0).2.1 false).1
      cowBuf0
      (CowBuf.ptrAccessor cowWorld0 cowBuf0).2.1
      (CowBuf.copy (CowBuf.ptrAccessor cowWorld0 cowBuf0).1
        (CowBuf.ptrAccessor cowWorld0 cowBuf0).2.1 false).2
      (CowBuf.ptrAccessor cowWorld0 cowBuf0).2.2
      (by decide) (by decide) rfl rfl).2.2.2.1⟩

end CudfBuffers
